import Mathlib

/-!
Verification of the labyrinth WebGL rendering pipeline (src/src/lib.rs).

The graphics context (`WebGlRenderingContext`) is modelled as an
environment `GLEnv` answering the query operations (location lookups,
compile/link status, resource creation), together with a trace of the
state-changing calls each embedded function emits, in order, as a
`List GLCall`.  Rust `Result` becomes `Except`, a `HashMap` becomes an
association list, an `unwrap()` panic becomes a dedicated outcome.
-/

/- WebGL numeric constants, with their standard GLenum values. -/

def TRIANGLE_STRIP : Nat := 5
def ARRAY_BUFFER : Nat := 34962
def STATIC_DRAW : Nat := 35044
def FLOAT_TAG : Nat := 5126
def COLOR_BUFFER_BIT : Nat := 16384
def VERTEX_SHADER : Nat := 35633
def FRAGMENT_SHADER : Nat := 35632

/- Semantic names and shader identifiers used by the program. -/

def semVertexPosition : String := "vertex_position"
def attrVertexPositionName : String := "a_vertex_position"
def semColour : String := "colour"
def uniColourName : String := "u_colour"
def semModelView : String := "model_view_matrix"
def uniModelViewName : String := "u_model_view_matrix"

/-- One state-changing call issued to the graphics context.  Handles
(buffers, shaders, programs, uniform locations) are modelled as `Nat`;
float payloads (`f32` slices) are modelled as lists of rationals, which
represent the literal constants of the source exactly. -/
inductive GLCall where
  | clearColor (r g b a : ℚ)
  | clear (mask : Nat)
  | bindBuffer (target : Nat) (buffer : Option Nat)
  | useProgram (program : Option Nat)
  | vertexAttribPointer (index : Nat) (size : Nat) (ty : Nat)
      (normalized : Bool) (stride : Nat) (offset : Nat)
  | enableVertexAttribArray (index : Nat)
  | uniform4fv (loc : Option Nat) (data : List ℚ)
  | uniformMatrix4fv (loc : Option Nat) (transpose : Bool) (data : List ℚ)
  | drawArrays (mode : Nat) (first : Int) (count : Int)
  | bufferData (target : Nat) (data : List ℚ) (usage : Nat)
  | createBuffer
  | createShader (ty : Nat)
  | shaderSource (shader : Nat) (source : String)
  | compileShader (shader : Nat)
  | createProgram
  | attachShader (program : Nat) (shader : Nat)
  | linkProgram (program : Nat)
  deriving DecidableEq, Repr

/-- The query half of the graphics context: responses to the fallible /
value-returning operations, fixed per environment.  `getAttribLocation`
returns an `Int` (`-1` when the attribute is absent, as in WebGL);
`getUniformLocation` returns `none` when the uniform is absent. -/
structure GLEnv where
  contextOk : Bool
  createShaderResult : Nat → Option Nat
  compileStatus : Nat → Bool
  shaderInfoLog : Nat → Option String
  createProgramResult : Option Nat
  linkStatus : Nat → Bool
  programInfoLog : Nat → Option String
  getAttribLocation : Nat → String → Int
  getUniformLocation : Nat → String → Option Nat
  createBufferResult : Option Nat

/-- Rust `as u32` on an `i32`: two's-complement wrap into `[0, 2^32)`. -/
def intAsU32 (i : Int) : Nat := (i % (2 ^ 32 : Int)).toNat

/-- `struct ProgramInfo` (lib.rs:16-20); the two `HashMap`s become
association lists, read through `List.lookup`. -/
structure ProgramInfo where
  program : Nat
  attrib_locations : List (String × Nat)
  uniform_locations : List (String × Nat)
  deriving DecidableEq, Repr

/-- Outcome of `ProgramInfo::new`: `ok`, a propagated `Err` (the
`JsValue` error string from `init_shader_program`), or a panic from
`unwrap()` on a missing uniform location. -/
inductive BuildOutcome where
  | ok (info : ProgramInfo)
  | err (msg : String)
  | panicked
  deriving DecidableEq, Repr

/-- `init_shader_program` (lib.rs:201-225): create a program object,
attach both shaders, link, and report the link status or the program
info log (with the fallback message of the source). -/
def init_shader_program (env : GLEnv) (vert_shader frag_shader : Nat) :
    List GLCall × Except String Nat :=
  match env.createProgramResult with
  | none => ([GLCall.createProgram], Except.error "Unable to create shader object")
  | some program =>
    let calls := [GLCall.createProgram,
                  GLCall.attachShader program vert_shader,
                  GLCall.attachShader program frag_shader,
                  GLCall.linkProgram program]
    if env.linkStatus program then
      (calls, Except.ok program)
    else
      (calls, Except.error
        ((env.programInfoLog program).getD "Unknown error creating program object"))

/-- `ProgramInfo::new` (lib.rs:22-63): link, then store the attribute
location of `a_vertex_position` cast `as u32`, then `unwrap()` the
uniform locations of `u_colour` and `u_model_view_matrix` — an absent
uniform is a panic, not a returned error. -/
def ProgramInfo.new (env : GLEnv) (vert_shader frag_shader : Nat) :
    List GLCall × BuildOutcome :=
  match init_shader_program env vert_shader frag_shader with
  | (calls, Except.error e) => (calls, BuildOutcome.err e)
  | (calls, Except.ok program) =>
    let attrib_locations :=
      [(semVertexPosition, intAsU32 (env.getAttribLocation program attrVertexPositionName))]
    match env.getUniformLocation program uniColourName with
    | none => (calls, BuildOutcome.panicked)
    | some colourLoc =>
      match env.getUniformLocation program uniModelViewName with
      | none => (calls, BuildOutcome.panicked)
      | some mvLoc =>
        (calls, BuildOutcome.ok
          { program := program
            attrib_locations := attrib_locations
            uniform_locations := [(semColour, colourLoc), (semModelView, mvLoc)] })

/-- `draw_scene` (lib.rs:65-74): one `draw_arrays` call, triangle
strip, start 0, `vertex_count = 4`. -/
def draw_scene : List GLCall :=
  [GLCall.drawArrays TRIANGLE_STRIP 0 4]

/-- `set_uniform` (lib.rs:76-88): look the location up (no unwrap —
`uniform4fv` accepts an `Option` location) and upload four floats. -/
def set_uniform (program_info : ProgramInfo) (uniform_name : String)
    (data : List ℚ) : List GLCall :=
  [GLCall.uniform4fv (List.lookup uniform_name program_info.uniform_locations) data]

/-- The colour constant uploaded every frame (lib.rs:98). -/
def colourConstant : List ℚ := [0, 1, 0.6, 1]

/-- The model-view matrix constant uploaded every frame
(lib.rs:106-111), column-major. -/
def modelViewConstant : List ℚ :=
  [0.5, 0, 0, 0,
   0, 1, 0, 0,
   0, 0, 1, 0,
   0, 0, 0, 1]

/-- `set_uniforms` (lib.rs:90-113): upload the fixed colour, then the
fixed model-view matrix.  No camera data is consulted. -/
def set_uniforms (program_info : ProgramInfo) : List GLCall :=
  set_uniform program_info semColour colourConstant ++
  [GLCall.uniformMatrix4fv (List.lookup semModelView program_info.uniform_locations)
    false modelViewConstant]

/-- Modelled from the spec: the file `src/camera.rs` declared by
`mod camera;` (lib.rs:13) is not present under src/, so the `Camera`
type is taken from spec §3/§4.1: position (vec3), orientation
(modelled as the rotation part of the world transform, a 4×4 matrix),
field of view in radians, aspect ratio, near and far clip planes. -/
structure Camera where
  position : Fin 3 → ℝ
  orientation : Matrix (Fin 4) (Fin 4) ℝ
  field_of_view : ℝ
  aspect_ratio : ℝ
  near_clip : ℝ
  far_clip : ℝ

/-- Homogeneous 4×4 translation matrix by a 3-vector. -/
def translationMatrix (v : Fin 3 → ℝ) : Matrix (Fin 4) (Fin 4) ℝ :=
  Matrix.of
    ![![1, 0, 0, v 0],
      ![0, 1, 0, v 1],
      ![0, 0, 1, v 2],
      ![0, 0, 0, 1]]

/-- Modelled from the spec (§4.1): `view()` is the inverse of the
camera's world transform — translation by `-position` composed with
the inverse of `orientation`. -/
noncomputable def Camera.view (c : Camera) : Matrix (Fin 4) (Fin 4) ℝ :=
  c.orientation⁻¹ * translationMatrix (fun i => -(c.position i))

/-- Modelled from the spec (§4.1): `projection()` is the standard
right-handed perspective projection built from field of view, aspect
ratio and the clip planes, column-major convention as in §3. -/
noncomputable def Camera.projection (c : Camera) : Matrix (Fin 4) (Fin 4) ℝ :=
  let f : ℝ := 1 / Real.tan (c.field_of_view / 2)
  Matrix.of
    ![![f / c.aspect_ratio, 0, 0, 0],
      ![0, f, 0, 0],
      ![0, 0, (c.far_clip + c.near_clip) / (c.near_clip - c.far_clip),
          2 * c.far_clip * c.near_clip / (c.near_clip - c.far_clip)],
      ![0, 0, -1, 0]]

/-- Modelled from the spec: `Camera::new()` (lib.rs:299) builds the
default camera — origin position, identity orientation (spec §4.1
degenerate policy), and the baseline scenario parameters fov = 45°,
aspect = 1, near = 0.1, far = 100 of spec §8. -/
noncomputable def Camera.new : Camera :=
  { position := fun _ => 0
    orientation := 1
    field_of_view := Real.pi / 4
    aspect_ratio := 1
    near_clip := 0.1
    far_clip := 100 }

/-- Column-major 16-element flattening of a 4×4 matrix (spec §3's
`Matrix4x4` representation), for comparison against uploaded data. -/
def colMajor (m : Matrix (Fin 4) (Fin 4) ℝ) : List ℝ :=
  [m 0 0, m 1 0, m 2 0, m 3 0,
   m 0 1, m 1 1, m 2 1, m 3 1,
   m 0 2, m 1 2, m 2 2, m 3 2,
   m 0 3, m 1 3, m 2 3, m 3 3]

/-- `prepare_scene` (lib.rs:115-142): bind the buffer, `unwrap()` the
cached attribute slot (`none` outcome models that panic), use the
program, configure and enable the position attribute, set the uniforms.
The `_camera` parameter is accepted and never read, exactly as in the
source. -/
noncomputable def prepare_scene (program_info : ProgramInfo) (buffer : Nat) (_camera : Camera) :
    List GLCall × Option Unit :=
  let bound := [GLCall.bindBuffer ARRAY_BUFFER (some buffer)]
  match List.lookup semVertexPosition program_info.attrib_locations with
  | none => (bound, none)
  | some vertex_position =>
    (bound ++
     [GLCall.useProgram (some program_info.program),
      GLCall.vertexAttribPointer vertex_position 3 FLOAT_TAG false 0 0,
      GLCall.enableVertexAttribArray vertex_position] ++
     set_uniforms program_info, some ())

/-- `clear_scene` (lib.rs:144-149): set the clear colour to opaque
black and clear the colour buffer. -/
def clear_scene : List GLCall :=
  [GLCall.clearColor 0 0 0 1, GLCall.clear COLOR_BUFFER_BIT]

/-- `render_scene` (lib.rs:151-165): clear, prepare, draw.  The draw
call is reached only if `prepare_scene` did not panic. -/
noncomputable def render_scene (program_info : ProgramInfo) (buffer : Nat) (camera : Camera) :
    List GLCall × Option Unit :=
  match prepare_scene program_info buffer camera with
  | (calls, none) => (clear_scene ++ calls, none)
  | (calls, some _) => (clear_scene ++ calls ++ draw_scene, some ())

/-- The 12-float quad vertex list of `init_buffers` (lib.rs:173-178). -/
def quadVertices : List ℚ :=
  [-0.5, 0.5, 0,
   0.5, 0.5, 0,
   -0.5, -0.5, 0,
   0.5, -0.5, 0]

/-- `init_buffers` (lib.rs:167-199): create a buffer, bind it to
`ARRAY_BUFFER`, upload the 12 quad floats with `STATIC_DRAW`.  The
`Float32Array::view` staging is runtime plumbing; the data handed to
`buffer_data` is exactly `quadVertices`. -/
def init_buffers (env : GLEnv) : List GLCall × Except String Nat :=
  match env.createBufferResult with
  | none => ([GLCall.createBuffer], Except.error "failed to create buffer")
  | some buffer =>
    ([GLCall.createBuffer,
      GLCall.bindBuffer ARRAY_BUFFER (some buffer),
      GLCall.bufferData ARRAY_BUFFER quadVertices STATIC_DRAW],
     Except.ok buffer)

/-- `load_shader` (lib.rs:227-251): create a shader object, hand it the
source, compile, and report the compile status or the shader info log
(with the fallback message of the source). -/
def load_shader (env : GLEnv) (shader_type : Nat) (source : String) :
    List GLCall × Except String Nat :=
  match env.createShaderResult shader_type with
  | none => ([GLCall.createShader shader_type], Except.error "Unable to create shader object")
  | some shader =>
    let calls := [GLCall.createShader shader_type,
                  GLCall.shaderSource shader source,
                  GLCall.compileShader shader]
    if env.compileStatus shader then
      (calls, Except.ok shader)
    else
      (calls, Except.error ((env.shaderInfoLog shader).getD "Unknown error creating shader"))

/-- The vertex shader source literal of `start` (lib.rs:272-282). -/
def vertexShaderSource : String :=
  "\n        attribute vec4 a_vertex_position;\n\n        uniform mat4 u_model_view_matrix;\n        // uniform mat4 uProjectionMatrix;\n\n        void main() \x7b\n            gl_Position = u_model_view_matrix * a_vertex_position;\n            // gl_Position = uProjectionMatrix * u_model_view_matrix * a_vertex_position;\n        \x7d\n    "

/-- The fragment shader source literal of `start` (lib.rs:287-295). -/
def fragmentShaderSource : String :=
  "\n\n        precision mediump float;\n        uniform vec4 u_colour;\n\n        void main() \x7b\n            gl_FragColor = u_colour;\n        \x7d\n    "

/-- Outcome of `start`: normal return, a propagated error, or a panic
inside `ProgramInfo::new` or `prepare_scene`. -/
inductive StartOutcome where
  | ok
  | err (msg : String)
  | panicked
  deriving DecidableEq, Repr

/-- `init_context` (lib.rs:253-264), reduced to its success/failure bit:
canvas and context acquisition is external to the GL model. -/
def init_context (env : GLEnv) : Except String Unit :=
  if env.contextOk then Except.ok () else Except.error "no context"

/-- `start` (lib.rs:266-308): acquire the context, compile both shader
stages, build `ProgramInfo`, upload the quad, construct the default
camera, render one frame.  Every `?` becomes an early `err` return and
every modelled panic propagates as `panicked`. -/
noncomputable def start (env : GLEnv) : List GLCall × StartOutcome :=
  match init_context env with
  | Except.error e => ([], StartOutcome.err e)
  | Except.ok _ =>
    match load_shader env VERTEX_SHADER vertexShaderSource with
    | (c₁, Except.error e) => (c₁, StartOutcome.err e)
    | (c₁, Except.ok vert_shader) =>
      match load_shader env FRAGMENT_SHADER fragmentShaderSource with
      | (c₂, Except.error e) => (c₁ ++ c₂, StartOutcome.err e)
      | (c₂, Except.ok frag_shader) =>
        match ProgramInfo.new env vert_shader frag_shader with
        | (c₃, BuildOutcome.err e) => (c₁ ++ c₂ ++ c₃, StartOutcome.err e)
        | (c₃, BuildOutcome.panicked) => (c₁ ++ c₂ ++ c₃, StartOutcome.panicked)
        | (c₃, BuildOutcome.ok program_info) =>
          match init_buffers env with
          | (c₄, Except.error e) => (c₁ ++ c₂ ++ c₃ ++ c₄, StartOutcome.err e)
          | (c₄, Except.ok positions_buffer) =>
            match render_scene program_info positions_buffer Camera.new with
            | (c₅, none) => (c₁ ++ c₂ ++ c₃ ++ c₄ ++ c₅, StartOutcome.panicked)
            | (c₅, some _) => (c₁ ++ c₂ ++ c₃ ++ c₄ ++ c₅, StartOutcome.ok)

/- Helper observations on traces, and concrete fixtures for witnesses. -/

/-- Recognise a draw call. -/
def isDrawCall : GLCall → Bool
  | GLCall.drawArrays _ _ _ => true
  | _ => false

/-- Recognise a link-stage call (program creation, attach, link). -/
def isLinkStageCall : GLCall → Bool
  | GLCall.createProgram => true
  | GLCall.attachShader _ _ => true
  | GLCall.linkProgram _ => true
  | _ => false

/-- Recognise a matrix-uniform upload. -/
def isMatrixUpload : GLCall → Bool
  | GLCall.uniformMatrix4fv _ _ _ => true
  | _ => false

/-- The buffer bound to `ARRAY_BUFFER` after a trace runs, starting
from a given binding. -/
def boundArrayBuffer (calls : List GLCall) (init : Option Nat) : Option Nat :=
  calls.foldl
    (fun st c =>
      match c with
      | GLCall.bindBuffer t b => if t = ARRAY_BUFFER then b else st
      | _ => st)
    init

/-- Cast a rational payload to the real numbers of the camera model. -/
def qListToR (l : List ℚ) : List ℝ := l.map fun q => (q : ℝ)

/-- A context in which every operation succeeds: shader handles equal
the requested stage tag, program handle 100, attribute slot 2, uniform
handles 7 (`u_colour`) and 8 (`u_model_view_matrix`), buffer 55. -/
def envAllGood : GLEnv :=
  { contextOk := true
    createShaderResult := fun ty => some ty
    compileStatus := fun _ => true
    shaderInfoLog := fun _ => none
    createProgramResult := some 100
    linkStatus := fun _ => true
    programInfoLog := fun _ => none
    getAttribLocation := fun _ _ => 2
    getUniformLocation := fun _ n => if n = uniColourName then some 7 else some 8
    createBufferResult := some 55 }

/-- The `ProgramInfo` value that `ProgramInfo.new envAllGood` builds. -/
def stdProgramInfo : ProgramInfo :=
  { program := 100
    attrib_locations := [(semVertexPosition, 2)]
    uniform_locations := [(semColour, 7), (semModelView, 8)] }

/-- A second concrete camera, differing from the default in every
mutable parameter, for the non-interference witnesses. -/
noncomputable def otherCamera : Camera :=
  { position := fun _ => 3
    orientation := translationMatrix fun _ => 1
    field_of_view := 1
    aspect_ratio := 2
    near_clip := 1
    far_clip := 10 }

/-- The default camera's view matrix is the identity: the orientation
is the identity (whose inverse is the identity) and the translation by
`-0` is the identity. -/
theorem camera_new_view_one : Camera.new.view = 1 := by
  have htr : translationMatrix (fun i => -(Camera.new.position i)) = 1 := by
    ext i j
    fin_cases i <;> fin_cases j <;>
      simp [translationMatrix, Camera.new, Matrix.one_apply,
        Matrix.vecHead, Matrix.vecTail]
  rw [Camera.view, htr, Camera.new, inv_one, one_mul]

/-- C7: In every `render_scene` call the colour buffer is cleared to
opaque black (clear colour 0,0,0,1 then clear of the colour bit) as
the first two actions of the frame, before any binding, uniform upload
or draw call. -/
theorem renderScene_clears_first (program_info : ProgramInfo) (buffer : Nat)
    (camera : Camera) :
    ∃ rest, (render_scene program_info buffer camera).1 =
      GLCall.clearColor 0 0 0 1 :: GLCall.clear COLOR_BUFFER_BIT :: rest := by
  unfold render_scene
  rcases h : prepare_scene program_info buffer camera with ⟨calls, r⟩
  cases r <;> exact ⟨_, rfl⟩

/-- C5: After `init_buffers` uploads the four corner vertices, one
`render_scene` call issues exactly one draw call, and it has primitive
count 4, start index 0 and triangle-strip topology. -/
theorem renderScene_single_draw (env : GLEnv) (buffer : Nat)
    (hbuf : (init_buffers env).2 = Except.ok buffer)
    (program_info : ProgramInfo) (camera : Camera) (vp : Nat)
    (hvp : List.lookup semVertexPosition program_info.attrib_locations = some vp) :
    GLCall.bufferData ARRAY_BUFFER quadVertices STATIC_DRAW ∈ (init_buffers env).1 ∧
    ((render_scene program_info buffer camera).1).filter isDrawCall =
      [GLCall.drawArrays TRIANGLE_STRIP 0 4] := by
  constructor
  · rcases h : env.createBufferResult with _ | b
    · simp [init_buffers, h] at hbuf
    · simp [init_buffers, h]
  · simp [render_scene, prepare_scene, hvp, clear_scene, draw_scene,
      set_uniforms, set_uniform, isDrawCall]

/-- Witness for C5 at the all-good context and its program info. -/
theorem renderScene_single_draw_witness :
    (init_buffers envAllGood).2 = Except.ok 55 ∧
    List.lookup semVertexPosition stdProgramInfo.attrib_locations = some 2 ∧
    (GLCall.bufferData ARRAY_BUFFER quadVertices STATIC_DRAW ∈ (init_buffers envAllGood).1 ∧
     ((render_scene stdProgramInfo 55 Camera.new).1).filter isDrawCall =
       [GLCall.drawArrays TRIANGLE_STRIP 0 4]) :=
  ⟨rfl, by decide,
   renderScene_single_draw envAllGood 55 rfl stdProgramInfo Camera.new 2 (by decide)⟩

/-- C6: In every `render_scene` call the vertex attribute pointer for
the `vertex_position` slot is configured with a 3-component float
layout and the buffer's (tightly-packed, stride parameter 0) stride,
and the slot is enabled; this happens after the geometry buffer is
bound to `ARRAY_BUFFER`, and no attribute-pointer configuration occurs
before that binding. -/
theorem vertexAttrib_after_bind (program_info : ProgramInfo) (buffer : Nat)
    (camera : Camera) (vp : Nat)
    (hvp : List.lookup semVertexPosition program_info.attrib_locations = some vp) :
    ∃ pre mid post,
      (render_scene program_info buffer camera).1 =
        pre ++ [GLCall.bindBuffer ARRAY_BUFFER (some buffer)] ++ mid ++
          [GLCall.vertexAttribPointer vp 3 FLOAT_TAG false 0 0,
           GLCall.enableVertexAttribArray vp] ++ post ∧
      ∀ c ∈ pre ++ mid,
        (∀ i s t n st off, c ≠ GLCall.vertexAttribPointer i s t n st off) ∧
        (∀ i, c ≠ GLCall.enableVertexAttribArray i) := by
  refine ⟨clear_scene, [GLCall.useProgram (some program_info.program)],
    set_uniforms program_info ++ draw_scene, ?_, ?_⟩
  · simp [render_scene, prepare_scene, hvp, clear_scene, draw_scene]
  · intro c hc
    simp [clear_scene] at hc
    rcases hc with h | h | h <;> subst h <;>
      exact ⟨fun _ _ _ _ _ _ => by simp, fun _ => by simp⟩

/-- Witness for C6 at the all-good fixtures. -/
theorem vertexAttrib_after_bind_witness :
    ∃ pre mid post,
      (render_scene stdProgramInfo 55 Camera.new).1 =
        pre ++ [GLCall.bindBuffer ARRAY_BUFFER (some 55)] ++ mid ++
          [GLCall.vertexAttribPointer 2 3 FLOAT_TAG false 0 0,
           GLCall.enableVertexAttribArray 2] ++ post ∧
      ∀ c ∈ pre ++ mid,
        (∀ i s t n st off, c ≠ GLCall.vertexAttribPointer i s t n st off) ∧
        (∀ i, c ≠ GLCall.enableVertexAttribArray i) :=
  vertexAttrib_after_bind stdProgramInfo 55 Camera.new 2 (by decide)

/-- C9: For any two camera values, `render_scene` issues the identical
call sequence with identical arguments: the camera has no influence on
the frame, and the uploads are the fixed model-view constant
`[0.5,0,0,0, 0,1,0,0, 0,0,1,0, 0,0,0,1]` and the fixed colour
`[0,1,0.6,1]`. -/
theorem renderScene_camera_noninterference (program_info : ProgramInfo) (buffer : Nat) :
    (∀ c₁ c₂ : Camera,
      render_scene program_info buffer c₁ = render_scene program_info buffer c₂) ∧
    (∀ (camera : Camera) (vp : Nat),
      List.lookup semVertexPosition program_info.attrib_locations = some vp →
      GLCall.uniform4fv (List.lookup semColour program_info.uniform_locations)
          [0, 1, 0.6, 1] ∈ (render_scene program_info buffer camera).1 ∧
      GLCall.uniformMatrix4fv (List.lookup semModelView program_info.uniform_locations)
          false [0.5, 0, 0, 0, 0, 1, 0, 0, 0, 0, 1, 0, 0, 0, 0, 1]
        ∈ (render_scene program_info buffer camera).1) := by
  constructor
  · intro c₁ c₂
    rfl
  · intro camera vp hvp
    constructor <;>
      simp [render_scene, prepare_scene, hvp, clear_scene, draw_scene,
        set_uniforms, set_uniform, colourConstant, modelViewConstant]

/-- Witness for C9: two concrete distinct cameras produce the same
trace, and the fixed constants are uploaded. -/
theorem renderScene_camera_noninterference_witness :
    render_scene stdProgramInfo 55 Camera.new = render_scene stdProgramInfo 55 otherCamera ∧
    GLCall.uniform4fv (List.lookup semColour stdProgramInfo.uniform_locations)
        [0, 1, 0.6, 1] ∈ (render_scene stdProgramInfo 55 Camera.new).1 :=
  ⟨(renderScene_camera_noninterference stdProgramInfo 55).1 Camera.new otherCamera,
   ((renderScene_camera_noninterference stdProgramInfo 55).2 Camera.new 2 (by decide)).1⟩

/-- C10: `init_buffers` uploads exactly the 12 quad floats with the
static-draw usage hint and returns with the buffer bound to
`ARRAY_BUFFER`; the vertex count 12/3 = 4 equals the count passed to
the draw call of `draw_scene`. -/
theorem initBuffers_uploads_quad (env : GLEnv) (buffer : Nat)
    (hbuf : (init_buffers env).2 = Except.ok buffer) :
    (init_buffers env).1 =
      [GLCall.createBuffer,
       GLCall.bindBuffer ARRAY_BUFFER (some buffer),
       GLCall.bufferData ARRAY_BUFFER quadVertices STATIC_DRAW] ∧
    quadVertices.length = 12 ∧
    boundArrayBuffer (init_buffers env).1 none = some buffer ∧
    quadVertices.length / 3 = 4 ∧
    draw_scene = [GLCall.drawArrays TRIANGLE_STRIP 0 4] := by
  rcases h : env.createBufferResult with _ | b
  · simp [init_buffers, h] at hbuf
  · have hb : buffer = b := by
      simp [init_buffers, h] at hbuf
      exact hbuf.symm
    subst hb
    refine ⟨?_, by decide, ?_, by decide, rfl⟩
    · simp [init_buffers, h]
    · simp [init_buffers, h, boundArrayBuffer, ARRAY_BUFFER]

/-- Witness for C10 at the all-good context. -/
theorem initBuffers_uploads_quad_witness :
    (init_buffers envAllGood).1 =
      [GLCall.createBuffer,
       GLCall.bindBuffer ARRAY_BUFFER (some 55),
       GLCall.bufferData ARRAY_BUFFER quadVertices STATIC_DRAW] ∧
    quadVertices.length = 12 ∧
    boundArrayBuffer (init_buffers envAllGood).1 none = some 55 ∧
    quadVertices.length / 3 = 4 ∧
    draw_scene = [GLCall.drawArrays TRIANGLE_STRIP 0 4] :=
  initBuffers_uploads_quad envAllGood 55 rfl

/-- A context whose linked program exposes `u_model_view_matrix` but no
`u_colour` uniform: the colour lookup returns `none`. -/
def envMissingColourUniform : GLEnv :=
  { envAllGood with
    getUniformLocation := fun _ n => if n = uniModelViewName then some 8 else none }

/-- A context whose linked program exposes both uniforms but no
`a_vertex_position` attribute: the attribute lookup returns `-1`. -/
def envMissingAttrib : GLEnv :=
  { envAllGood with getAttribLocation := fun _ _ => -1 }

/-- Counterexample to C2: with `u_colour` absent from the linked
program, `ProgramInfo::new` panics (`unwrap()` of `None`) instead of
returning a `LookupError` to its caller; and with the attribute
absent, construction completes with the slot silently set to the `u32`
cast of `-1` (4294967295) — an unbound attribute slot. -/
theorem programInfo_new_lookup_cex :
    (ProgramInfo.new envMissingColourUniform 1 2).2 = BuildOutcome.panicked ∧
    (ProgramInfo.new envMissingAttrib 1 2).2 =
      BuildOutcome.ok
        { program := 100
          attrib_locations := [(semVertexPosition, 4294967295)]
          uniform_locations := [(semColour, 7), (semModelView, 8)] } := by
  constructor <;> decide

/-- C2 as amended: given a successfully linked program, an absent
uniform name makes `ProgramInfo::new` terminate abnormally (panic)
rather than return an error, while an absent attribute is recorded as
the `u32` cast of the `-1` lookup result and construction completes
normally. -/
theorem programInfo_new_resolution (env : GLEnv) (vs fs p : Nat)
    (hp : env.createProgramResult = some p) (hl : env.linkStatus p = true) :
    ((env.getUniformLocation p uniColourName = none ∨
      env.getUniformLocation p uniModelViewName = none) →
      (ProgramInfo.new env vs fs).2 = BuildOutcome.panicked) ∧
    (∀ lc lm, env.getUniformLocation p uniColourName = some lc →
      env.getUniformLocation p uniModelViewName = some lm →
      (ProgramInfo.new env vs fs).2 = BuildOutcome.ok
        { program := p
          attrib_locations :=
            [(semVertexPosition, intAsU32 (env.getAttribLocation p attrVertexPositionName))]
          uniform_locations := [(semColour, lc), (semModelView, lm)] }) := by
  have hinit : init_shader_program env vs fs =
      ([GLCall.createProgram, GLCall.attachShader p vs, GLCall.attachShader p fs,
        GLCall.linkProgram p], Except.ok p) := by
    simp [init_shader_program, hp, hl]
  constructor
  · rintro (h | h) <;>
      rcases hc : env.getUniformLocation p uniColourName with _ | lc <;>
      rcases hm : env.getUniformLocation p uniModelViewName with _ | lm <;>
        simp_all [ProgramInfo.new, hinit]
  · intro lc lm hc hm
    simp [ProgramInfo.new, hinit, hc, hm]

/-- Witness for the amended C2 at the all-good context. -/
theorem programInfo_new_resolution_witness :
    envAllGood.createProgramResult = some 100 ∧ envAllGood.linkStatus 100 = true ∧
    (ProgramInfo.new envAllGood 1 2).2 = BuildOutcome.ok stdProgramInfo :=
  ⟨rfl, rfl, by
    have h := (programInfo_new_resolution envAllGood 1 2 100 rfl rfl).2 7 8
      (by decide) (by decide)
    rw [h]
    decide⟩

/-- The uniform name of the combined model-view-projection variant
(spec §6 variant (b)); the source never queries any such name. -/
def uniCombinedName : String := "u_model_view_projection_matrix"

/-- A context whose linked program exposes exactly the combined-MVP
variant: one combined matrix uniform and nothing else (the fragment
colour is hardcoded, so no `u_colour` exists). -/
def envCombinedOnly : GLEnv :=
  { envAllGood with
    getUniformLocation := fun _ n => if n = uniCombinedName then some 3 else none }

/-- Counterexample to C3: on a linked program exposing the complete
combined-MVP uniform variant, construction neither succeeds nor
reports a `LookupError` — it panics, because the code unconditionally
unwraps the separate-variant names `u_colour`/`u_model_view_matrix`
and never attempts the combined variant. -/
theorem programInfo_new_variant_cex :
    envCombinedOnly.getUniformLocation 100 uniCombinedName = some 3 ∧
    (ProgramInfo.new envCombinedOnly 1 2).2 = BuildOutcome.panicked := by
  constructor <;> decide

/-- C3 as amended: construction consults only the separate-variant
names `u_colour` and `u_model_view_matrix` — it succeeds exactly when
both resolve, and its outcome is unchanged under any modification of
the context's responses for other uniform names (in particular the
combined-MVP variant is never attempted). -/
theorem programInfo_new_single_variant (env : GLEnv) (vs fs p : Nat)
    (hp : env.createProgramResult = some p) (hl : env.linkStatus p = true) :
    ((∃ info, (ProgramInfo.new env vs fs).2 = BuildOutcome.ok info) ↔
      ((env.getUniformLocation p uniColourName).isSome ∧
       (env.getUniformLocation p uniModelViewName).isSome)) ∧
    (∀ env' : GLEnv, env'.createProgramResult = some p → env'.linkStatus p = true →
      env'.getAttribLocation p attrVertexPositionName =
        env.getAttribLocation p attrVertexPositionName →
      env'.getUniformLocation p uniColourName = env.getUniformLocation p uniColourName →
      env'.getUniformLocation p uniModelViewName = env.getUniformLocation p uniModelViewName →
      (ProgramInfo.new env' vs fs).2 = (ProgramInfo.new env vs fs).2) := by
  have hinit : init_shader_program env vs fs =
      ([GLCall.createProgram, GLCall.attachShader p vs, GLCall.attachShader p fs,
        GLCall.linkProgram p], Except.ok p) := by
    simp [init_shader_program, hp, hl]
  constructor
  · rcases hc : env.getUniformLocation p uniColourName with _ | lc <;>
    rcases hm : env.getUniformLocation p uniModelViewName with _ | lm <;>
      simp [ProgramInfo.new, hinit, hc, hm]
  · intro env' hp' hl' ha' hc' hm'
    have hinit' : init_shader_program env' vs fs =
        ([GLCall.createProgram, GLCall.attachShader p vs, GLCall.attachShader p fs,
          GLCall.linkProgram p], Except.ok p) := by
      simp [init_shader_program, hp', hl']
    rcases hc : env.getUniformLocation p uniColourName with _ | lc <;>
    rcases hm : env.getUniformLocation p uniModelViewName with _ | lm <;>
      simp [ProgramInfo.new, hinit, hinit', hc, hm, hc', hm', ha']

/-- Witness for the amended C3: at the all-good context, success is
equivalent to both separate-variant uniforms resolving, and changing
an unrelated context response leaves the outcome unchanged. -/
theorem programInfo_new_single_variant_witness :
    ((∃ info, (ProgramInfo.new envAllGood 1 2).2 = BuildOutcome.ok info) ↔
      ((envAllGood.getUniformLocation 100 uniColourName).isSome ∧
       (envAllGood.getUniformLocation 100 uniModelViewName).isSome)) ∧
    (ProgramInfo.new { envAllGood with createBufferResult := none } 1 2).2 =
      (ProgramInfo.new envAllGood 1 2).2 :=
  ⟨(programInfo_new_single_variant envAllGood 1 2 100 rfl rfl).1,
   (programInfo_new_single_variant envAllGood 1 2 100 rfl rfl).2
     { envAllGood with createBufferResult := none } rfl rfl rfl rfl rfl⟩

/-- A context in which the vertex stage compiles but the fragment
stage is rejected and the compiler log is the empty string. -/
def envFragRejectedEmptyLog : GLEnv :=
  { envAllGood with
    compileStatus := fun s => s == VERTEX_SHADER
    shaderInfoLog := fun _ => some "" }

/-- Counterexample to C4: when the rejected fragment stage's compiler
log is the empty string, `start` propagates a compile error whose
diagnostic text is empty — not the non-empty diagnostic the claim
requires (the code only substitutes its fallback text when the log is
absent, not when it is empty).  The link stage is still never
reached. -/
theorem loadShader_compile_cex :
    (start envFragRejectedEmptyLog).2 = StartOutcome.err "" ∧
    ("" : String).isEmpty = true ∧
    (start envFragRejectedEmptyLog).1.filter isLinkStageCall = [] := by
  refine ⟨rfl, rfl, by decide⟩

/-- C4 as amended: a rejected fragment-stage compilation makes `start`
return the compile diagnostic — the compiler log when one is present
(possibly empty), else the fixed fallback text — and no link-stage
call (program creation, attach, link) is ever issued. -/
theorem start_compile_error_no_link (env : GLEnv) (vs fsh : Nat)
    (hctx : env.contextOk = true)
    (hvs : env.createShaderResult VERTEX_SHADER = some vs)
    (hvc : env.compileStatus vs = true)
    (hfs : env.createShaderResult FRAGMENT_SHADER = some fsh)
    (hfc : env.compileStatus fsh = false) :
    (start env).2 =
      StartOutcome.err ((env.shaderInfoLog fsh).getD "Unknown error creating shader") ∧
    (start env).1.filter isLinkStageCall = [] := by
  have h₁ : load_shader env VERTEX_SHADER vertexShaderSource =
      ([GLCall.createShader VERTEX_SHADER, GLCall.shaderSource vs vertexShaderSource,
        GLCall.compileShader vs], Except.ok vs) := by
    simp [load_shader, hvs, hvc]
  have h₂ : load_shader env FRAGMENT_SHADER fragmentShaderSource =
      ([GLCall.createShader FRAGMENT_SHADER, GLCall.shaderSource fsh fragmentShaderSource,
        GLCall.compileShader fsh],
       Except.error ((env.shaderInfoLog fsh).getD "Unknown error creating shader")) := by
    simp [load_shader, hfs, hfc]
  constructor <;>
    simp [start, init_context, hctx, h₁, h₂, isLinkStageCall]

/-- Witness for the amended C4 at the empty-log context. -/
theorem start_compile_error_no_link_witness :
    envFragRejectedEmptyLog.contextOk = true ∧
    envFragRejectedEmptyLog.compileStatus 35632 = false ∧
    ((start envFragRejectedEmptyLog).2 =
      StartOutcome.err ((envFragRejectedEmptyLog.shaderInfoLog 35632).getD
        "Unknown error creating shader") ∧
     (start envFragRejectedEmptyLog).1.filter isLinkStageCall = []) :=
  ⟨rfl, rfl,
   start_compile_error_no_link envFragRejectedEmptyLog 35633 35632 rfl rfl rfl rfl rfl⟩

/-- Counterexample to C1: in the frame rendered for the default
camera, the single matrix upload carries the fixed constant, which
differs from the camera's view matrix (the separate-matrices reading)
and from the projection-view product (the combined-MVP reading): the
uploaded matrix is not derived from the camera's state. -/
theorem renderScene_camera_upload_cex :
    ((render_scene stdProgramInfo 55 Camera.new).1).filter isMatrixUpload =
      [GLCall.uniformMatrix4fv (some 8) false modelViewConstant] ∧
    qListToR modelViewConstant ≠ colMajor Camera.new.view ∧
    qListToR modelViewConstant ≠ colMajor (Camera.new.projection * Camera.new.view) := by
  refine ⟨?_, ?_, ?_⟩
  · have hvp : List.lookup semVertexPosition stdProgramInfo.attrib_locations = some 2 := by
      decide
    have hmv : List.lookup semModelView stdProgramInfo.uniform_locations = some 8 := by
      decide
    simp [render_scene, prepare_scene, hvp, hmv, clear_scene, draw_scene,
      set_uniforms, set_uniform, isMatrixUpload]
  · rw [camera_new_view_one]
    intro h
    have h0 := congrArg (fun l => l.get? 0) h
    simp [qListToR, modelViewConstant, colMajor, Matrix.one_apply] at h0
    norm_num at h0
  · rw [camera_new_view_one, mul_one]
    intro h
    have h15 := congrArg (fun l => l.get? 15) h
    simp [qListToR, modelViewConstant, colMajor, Camera.projection, Camera.new] at h15

/-- C1 as amended: every frame uploads exactly one matrix — the fixed
model-view constant — together with the fixed colour, to the active
program's uniform handles; the uploaded data is independent of the
camera argument, whose state never reaches the context. -/
theorem renderScene_uploads_fixed_constants (program_info : ProgramInfo)
    (buffer : Nat) (camera : Camera) (vp : Nat)
    (hvp : List.lookup semVertexPosition program_info.attrib_locations = some vp) :
    ((render_scene program_info buffer camera).1).filter isMatrixUpload =
      [GLCall.uniformMatrix4fv (List.lookup semModelView program_info.uniform_locations)
        false modelViewConstant] ∧
    GLCall.uniform4fv (List.lookup semColour program_info.uniform_locations)
      colourConstant ∈ (render_scene program_info buffer camera).1 ∧
    ∀ camera' : Camera,
      render_scene program_info buffer camera = render_scene program_info buffer camera' := by
  refine ⟨?_, ?_, fun _ => rfl⟩ <;>
    simp [render_scene, prepare_scene, hvp, clear_scene, draw_scene,
      set_uniforms, set_uniform, isMatrixUpload]

/-- Witness for the amended C1 at the standard fixtures. -/
theorem renderScene_uploads_fixed_constants_witness :
    ((render_scene stdProgramInfo 55 otherCamera).1).filter isMatrixUpload =
      [GLCall.uniformMatrix4fv (List.lookup semModelView stdProgramInfo.uniform_locations)
        false modelViewConstant] ∧
    GLCall.uniform4fv (List.lookup semColour stdProgramInfo.uniform_locations)
      colourConstant ∈ (render_scene stdProgramInfo 55 otherCamera).1 ∧
    ∀ camera' : Camera,
      render_scene stdProgramInfo 55 otherCamera = render_scene stdProgramInfo 55 camera' :=
  renderScene_uploads_fixed_constants stdProgramInfo 55 otherCamera 2 (by decide)

/-- C8 (camera modelled from the spec, its source file being absent
from src/): the default camera — origin position, identity
orientation — has the identity view matrix, and with fov = 45°,
aspect = 1, near = 0.1, far = 100 the projection's [0][0] entry equals
1/tan(fov/2); the model realises the claim's 1e-6 tolerance as exact
equality. -/
theorem camera_default_view_and_projection :
    Camera.new.view = 1 ∧
    |Camera.new.projection 0 0 - 1 / Real.tan (Real.pi / 4 / 2)| ≤ 1e-6 := by
  refine ⟨camera_new_view_one, ?_⟩
  have hp : Camera.new.projection 0 0 = 1 / Real.tan (Real.pi / 4 / 2) := by
    simp [Camera.projection, Camera.new]
  rw [hp, sub_self, abs_zero]
  norm_num
